import Mathlib

/-!
Verification of the core scheduling and reconciliation engine of the
Read-React repository against its natural-language specification.

The development shallowly embeds, in Lean, the parts of the source that the
claims concern:

* `packages/scheduler/src/forks/Scheduler.js` — task construction
  (`unstable_scheduleCallback`), the work loop's per-task protocol
  (`workLoop`), timer promotion (`advanceTimers`), the yield heuristic
  (`shouldYieldToHost`) and `forceFrameRate`.
* `packages/react-reconciler/src/ReactFiberWorkLoop.old.js` — the concurrent
  work driver (`performConcurrentWorkOnRoot`), error recovery
  (`recoverFromConcurrentError`), `finishConcurrentRender`, the commit phase
  (`commitRootImpl`), the nested-update loop guard
  (`throwIfInfiniteUpdateLoopDetected`) and the root-level branch of
  `handleError`.

Machine numbers are embedded as `Int`/`Nat` (the JS numbers involved stay far
below any overflow boundary, and the source performs no wrapping arithmetic).
Stateful code is embedded as explicit state passing; observable actions of the
reconciler driver are recorded in a trace (`Ev` events).  Sub-systems whose
sources are not part of the repository snapshot (the min-heap module, the lane
bit-set helpers, `beginWork`/`completeWork`) are represented by environment
parameters or, where noted, modelled from the specification.
-/

namespace ReadReact

/-! ## Scheduler: tasks and priorities

`SchedulerPriorities.js` is not in the source snapshot.  Modelled from the
spec: the five priority levels (immediate, user-blocking, normal, low, idle)
are represented as distinct naturals; only their identities matter to the
embedded code. -/

def ImmediatePriority : Nat := 1

def UserBlockingPriority : Nat := 2

def NormalPriority : Nat := 3

def LowPriority : Nat := 4

def IdlePriority : Nat := 5

/-- `var maxSigned31BitInt = 1073741823` (Scheduler.js line 66). -/
def maxSigned31BitInt : Int := 1073741823

/-- Timeout constants of Scheduler.js lines 73-79. -/
def IMMEDIATE_PRIORITY_TIMEOUT : Int := -1

def USER_BLOCKING_PRIORITY_TIMEOUT : Int := 250

def NORMAL_PRIORITY_TIMEOUT : Int := 5000

def LOW_PRIORITY_TIMEOUT : Int := 10000

def IDLE_PRIORITY_TIMEOUT : Int := maxSigned31BitInt

/-- A scheduler task (`newTask` of `unstable_scheduleCallback`).  The JS
callback function is represented by an abstract identifier; `callback = none`
is the cancelled/cleared state (`task.callback = null`). -/
structure STask where
  id : Nat
  callback : Option Nat
  priorityLevel : Nat
  startTime : Int
  expirationTime : Int
  sortIndex : Int
deriving DecidableEq

/-- The `switch (priorityLevel)` of `unstable_scheduleCallback`
(Scheduler.js lines 444-461): immediate, user-blocking, idle and low get
their own budgets; normal and every other value fall to the default. -/
def timeoutForPriority (priorityLevel : Nat) : Int :=
  if priorityLevel = ImmediatePriority then IMMEDIATE_PRIORITY_TIMEOUT
  else if priorityLevel = UserBlockingPriority then USER_BLOCKING_PRIORITY_TIMEOUT
  else if priorityLevel = IdlePriority then IDLE_PRIORITY_TIMEOUT
  else if priorityLevel = LowPriority then LOW_PRIORITY_TIMEOUT
  else NORMAL_PRIORITY_TIMEOUT

/-- Which heap `unstable_scheduleCallback` pushes the new task into. -/
inductive QueueChoice where
  | timerQueue
  | taskQueue
deriving DecidableEq

/-- The `startTime` computation of `unstable_scheduleCallback`
(Scheduler.js lines 425-440): `currentTime + delay` only when a numeric
delay greater than zero was passed.  The `options`/`delay` optional chain is
collapsed into one `Option Int`. -/
def schedStartTime (currentTime : Int) (delay : Option Int) : Int :=
  match delay with
  | some d => if d > 0 then currentTime + d else currentTime
  | none => currentTime

/-- `unstable_scheduleCallback(priorityLevel, callback, options)`
(Scheduler.js lines 421-522), up to the heap push: the new task carries
`startTime` (see `schedStartTime`), `expirationTime = startTime + timeout`
for the priority's timeout, and is destined for the timer heap with
`sortIndex = startTime` when `startTime > currentTime`, otherwise for the
ready task heap with `sortIndex = expirationTime`.  (The JS `let` bindings
for `startTime`/`timeout`/`expirationTime` are inlined.) -/
def unstable_scheduleCallback (currentTime : Int) (priorityLevel : Nat)
    (delay : Option Int) (taskId cb : Nat) : STask × QueueChoice :=
  if schedStartTime currentTime delay > currentTime then
    ({ id := taskId, callback := some cb, priorityLevel := priorityLevel,
       startTime := schedStartTime currentTime delay,
       expirationTime :=
         schedStartTime currentTime delay + timeoutForPriority priorityLevel,
       sortIndex := schedStartTime currentTime delay },
     QueueChoice.timerQueue)
  else
    ({ id := taskId, callback := some cb, priorityLevel := priorityLevel,
       startTime := schedStartTime currentTime delay,
       expirationTime :=
         schedStartTime currentTime delay + timeoutForPriority priorityLevel,
       sortIndex :=
         schedStartTime currentTime delay + timeoutForPriority priorityLevel },
     QueueChoice.taskQueue)

/-! ## Scheduler: heaps and the work loop

`SchedulerMinHeap.js` is not in the source snapshot.  Modelled from the spec:
each heap is a min-priority queue ordered by `sortIndex` with the task `id`
as tie-breaker; it is represented here as a sorted list, with `push` an
ordered insert, `peek` the head and `pop` the tail. -/

def taskBefore (a b : STask) : Bool :=
  a.sortIndex < b.sortIndex || (a.sortIndex = b.sortIndex && a.id < b.id)

def heapPush : List STask → STask → List STask
  | [], t => [t]
  | x :: xs, t => if taskBefore t x then t :: x :: xs else x :: heapPush xs t

def heapPeek (q : List STask) : Option STask := q.head?

def heapPop (q : List STask) : List STask := q.tail

/-- `advanceTimers(currentTime)` (Scheduler.js lines 136-164): pop cancelled
timers; move every timer whose `startTime` has been reached into the task
queue with `sortIndex = expirationTime`; stop at the first still-pending
timer.  Returns the remaining timer queue and the extended task queue. -/
def advanceTimers (currentTime : Int) : List STask → List STask → List STask × List STask
  | [], taskQ => ([], taskQ)
  | t :: rest, taskQ =>
    if t.callback = none then advanceTimers currentTime rest taskQ
    else if t.startTime ≤ currentTime then
      advanceTimers currentTime rest (heapPush taskQ { t with sortIndex := t.expirationTime })
    else (t :: rest, taskQ)

/-- `q.map (·.callback := c)` restricted to the task with identifier `tid` —
the list-model counterpart of mutating `currentTask.callback` in place (heap
entries are JS object references; task ids are unique). -/
def setTaskCallback (q : List STask) (tid : Nat) (c : Option Nat) : List STask :=
  q.map fun t => if t.id = tid then { t with callback := c } else t

/-- Inputs of one iteration of the `workLoop` body (Scheduler.js lines
254-314).  The effect of running the task's callback is environmental and is
supplied as data: `contResult` is the returned continuation (a function in JS,
`none` for any non-function return), `pushedTasks` are the ready tasks the
callback scheduled into the task queue while running, and
`timeAfterCallback` is the `getCurrentTime()` reading taken right after the
callback returns. -/
structure StepIn where
  taskQ : List STask
  timerQ : List STask
  currentTime : Int
  hasTimeRemaining : Bool
  shouldYield : Bool
  contResult : Option Nat
  pushedTasks : List STask
  timeAfterCallback : Int

inductive StepKind where
  | emptyQueue
  | deadlineBreak
  | invoked (didUserCallbackTimeout : Bool)
  | poppedNoCallback
deriving DecidableEq

structure StepOut where
  kind : StepKind
  taskQ : List STask
  timerQ : List STask
deriving DecidableEq

/-- One iteration of the `workLoop` `while` body for the task at the head of
the task queue: the deadline break (`expirationTime > currentTime &&
(!hasTimeRemaining || shouldYieldToHost())`); clearing `callback` before
invoking it; `didUserCallbackTimeout = expirationTime <= currentTime`;
storing a returned continuation back on the task; otherwise popping the task
only if it is still the head (`currentTask === peek(taskQueue)`); the
lazy pop of a cancelled task; and the trailing `advanceTimers`. -/
def workLoopStep (s : StepIn) : StepOut :=
  match heapPeek s.taskQ with
  | none => ⟨StepKind.emptyQueue, s.taskQ, s.timerQ⟩
  | some task =>
    if task.expirationTime > s.currentTime && (!s.hasTimeRemaining || s.shouldYield) then
      ⟨StepKind.deadlineBreak, s.taskQ, s.timerQ⟩
    else
      match task.callback with
      | some _ =>
        let flag := decide (task.expirationTime ≤ s.currentTime)
        let q1 := setTaskCallback s.taskQ task.id none
        let q2 := s.pushedTasks.foldl heapPush q1
        let q3 :=
          match s.contResult with
          | some c => setTaskCallback q2 task.id (some c)
          | none =>
            if (heapPeek q2).map STask.id = some task.id then heapPop q2 else q2
        let tq := advanceTimers s.timeAfterCallback s.timerQ q3
        ⟨StepKind.invoked flag, tq.2, tq.1⟩
      | none =>
        ⟨StepKind.poppedNoCallback, heapPop s.taskQ, s.timerQ⟩

/-! ## Scheduler: the yield heuristic -/

/-- `frameYieldMs` (SchedulerFeatureFlags; value recorded at Scheduler.js
line 592: `let frameInterval = frameYieldMs; //5`). -/
def frameYieldMs : Int := 5

/-- `continuousYieldMs` (Scheduler.js line 593: `//50`). -/
def continuousYieldMs : Int := 50

/-- `maxYieldMs` (Scheduler.js line 594: `//300`). -/
def maxYieldMs : Int := 300

/-- Host facts read by `shouldYieldToHost`: the build-time
`enableIsInputPending` flag (`false` in the shipped configuration, per the
comment at Scheduler.js line 606), the pending-paint flag, and the
`navigator.scheduling.isInputPending` probe (its availability and its results
with and without the continuous option). -/
structure YieldEnv where
  enableIsInputPending : Bool
  needsPaint : Bool
  inputPendingAvailable : Bool
  inputPending : Bool
  inputPendingContinuous : Bool

/-- `shouldYieldToHost()` (Scheduler.js lines 599-631) with
`timeElapsed = getCurrentTime() - startTime` and the mutable `frameInterval`
passed explicitly.  In the JS, an unavailable `isInputPending` makes the two
middle branches fall through to the final `return true`. -/
def shouldYieldToHost (env : YieldEnv) (frameInterval timeElapsed : Int) : Bool :=
  if timeElapsed < frameInterval then false
  else if env.enableIsInputPending then
    if env.needsPaint then true
    else if timeElapsed < continuousYieldMs then
      if env.inputPendingAvailable then env.inputPending else true
    else if timeElapsed < maxYieldMs then
      if env.inputPendingAvailable then env.inputPendingContinuous else true
    else true
  else true

/-- `forceFrameRate(fps)` (Scheduler.js lines 655-672): out-of-range values
only log an error and leave the interval unchanged; a positive fps sets
`frameInterval = Math.floor(1000 / fps)`; zero resets to the default. -/
def forceFrameRate (fps : Int) (frameInterval : Int) : Int :=
  if fps < 0 || fps > 125 then frameInterval
  else if fps > 0 then 1000 / fps
  else frameYieldMs

/-! ## Reconciler: exit statuses, traces, commit phase

`Lanes` are 31-bit bitsets (`ReactFiberLane.old.js`, not in the snapshot);
here a lane set is a `Nat` used only for emptiness tests and equality, with
the set-algebra predicates the work loop consults supplied by the
environment.  `NoLanes = 0`. -/

abbrev Lanes := Nat

def NoLanes : Lanes := 0

/-- `RootExitStatus` (ReactFiberWorkLoop.old.js lines 265-272). -/
inductive RootExitStatus where
  | rootInProgress
  | rootFatalErrored
  | rootErrored
  | rootSuspended
  | rootSuspendedWithDelay
  | rootCompleted
  | rootDidNotComplete
deriving DecidableEq

/-- Observable actions of the work-loop driver and the commit phase, in
program order.  Trees and error values are abstract naturals. -/
inductive Ev where
  | flushPassive
  | render (sync : Bool) (lanes : Lanes)
  | storeCheck (ok : Bool)
  | prepareFresh
  | markSuspended (lanes : Lanes)
  | markPinged
  | ensureScheduled
  | schedulePassiveCallback
  | beforeMutationPass
  | mutationPass
  | setCurrent (tree : Nat)
  | layoutPass
  | requestPaint
  | reportRecoverable (e : Nat)
  | scheduleTimeoutCommit (ms : Int)
  | flushSyncCbs
deriving DecidableEq

/-- Values thrown out of the driver or the commit phase. -/
inductive Thrown where
  | cannotCommitSameTree
  | fatal (e : Nat)
  | bugRootDidNotComplete
  | unknownExitStatus
  | uncaught (e : Nat)
  | maxUpdateDepth
deriving DecidableEq

/-- `NESTED_UPDATE_LIMIT = 50` (ReactFiberWorkLoop.old.js line 482). -/
def NESTED_UPDATE_LIMIT : Nat := 50

/-- `NESTED_PASSIVE_UPDATE_LIMIT = 50` (line 488). -/
def NESTED_PASSIVE_UPDATE_LIMIT : Nat := 50

/-- The module-level nested-update bookkeeping
(ReactFiberWorkLoop.old.js lines 482-490); roots are abstract naturals. -/
structure NestedState where
  nestedUpdateCount : Nat
  rootWithNestedUpdates : Option Nat
  nestedPassiveUpdateCount : Nat
  rootWithPassiveNestedUpdates : Option Nat
deriving DecidableEq

/-- The tail of `commitRootImpl` (lines 2570-2587): after re-reading
`root.pendingLanes`, if it still includes the synchronous lane, count the
consecutive sync re-render (increment when the committing root is already
the tracked one, otherwise start tracking it at zero); otherwise reset. -/
def updateNestedCounters (pendingIncludesSync : Bool) (rootId : Nat)
    (s : NestedState) : NestedState :=
  if pendingIncludesSync then
    if s.rootWithNestedUpdates = some rootId then
      { s with nestedUpdateCount := s.nestedUpdateCount + 1 }
    else
      { s with nestedUpdateCount := 0, rootWithNestedUpdates := some rootId }
  else
    { s with nestedUpdateCount := 0 }

/-- `throwIfInfiniteUpdateLoopDetected()` (lines 3048-3076): throws the
"Maximum update depth exceeded" error and resets all counters when
`nestedUpdateCount > NESTED_UPDATE_LIMIT`.  The passive-counter branch
(`nestedPassiveUpdateCount > NESTED_PASSIVE_UPDATE_LIMIT`) is inside
`if (__DEV__)` and only calls `console.error`; it never throws, so it does
not appear in the result. -/
def throwIfInfiniteUpdateLoopDetected (s : NestedState) :
    Option Thrown × NestedState :=
  if s.nestedUpdateCount > NESTED_UPDATE_LIMIT then
    (some Thrown.maxUpdateDepth, ⟨0, none, 0, none⟩)
  else (none, s)

/-- Environment of one `performConcurrentWorkOnRoot` invocation: results of
the collaborator calls whose sources are outside this snapshot.
`renders k` is the outcome of the (k+1)-th `renderRootSync`/
`renderRootConcurrent` call of this invocation (exit status, the content the
build left in `root.current.alternate`, the post-render values of the
concurrent/recoverable error queues, and the fatal error value if any);
the lane predicates mirror `ReactFiberLane.old.js`. -/
structure RenderOutcome where
  status : RootExitStatus
  tree : Nat
  concurrentErrors : Option (List Nat)
  recoverableErrors : Option (List Nat)
  fatalError : Nat

structure WEnv where
  rootId : Nat
  currentTree : Nat
  includesBlockingLane : Lanes → Bool
  includesExpiredLane : Lanes → Bool
  didTimeout : Bool
  passiveCanceledCallback : Bool
  isDehydrated : Bool
  renders : Nat → RenderOutcome
  errorRetryLanes : Lanes
  consistentWith : Nat → Bool
  includesOnlyRetries : Lanes → Bool
  includesOnlyTransitions : Lanes → Bool
  devForceFallbackFlush : Bool
  now : Int
  mostRecentFallbackTime : Int
  mostRecentEventTime : Int
  nextLanesAfterSuspense : Lanes
  suspendedSubset : Bool
  effectsPresent : Bool
  passiveFlagged : Bool
  hasUncaughtError : Bool
  uncaughtError : Nat
  pendingIncludesSyncAfter : Bool

/-- `FALLBACK_THROTTLE_MS = 500` (line 319). -/
def FALLBACK_THROTTLE_MS : Int := 500

/-- `jnd(timeElapsed)` (lines 3032-3045); `ceil(x / 1960) * 1960` for a
non-negative elapsed time is `((x + 1959) / 1960) * 1960` in truncating
integer division. -/
def jnd (timeElapsed : Int) : Int :=
  if timeElapsed < 120 then 120
  else if timeElapsed < 480 then 480
  else if timeElapsed < 1080 then 1080
  else if timeElapsed < 1920 then 1920
  else if timeElapsed < 3000 then 3000
  else if timeElapsed < 4320 then 4320
  else ((timeElapsed + 1959) / 1960) * 1960

/-- `commitRootImpl(root, recoverableErrors, transitions, renderPriority)`
(lines 2245-2595).  Trace of one commit, the value it throws (if any), and
the updated nested-update bookkeeping:
* the opening `do { flushPassiveEffects() } while (…)` loop (one event);
* early return when `root.finishedWork === null`;
* the `'Cannot commit the same tree as before'` throw when
  `finishedWork === root.current`;
* scheduling of the deferred passive-effects callback when the finished tree
  carries passive flags;
* with effects: the before-mutation pass, the mutation pass, the
  `root.current = finishedWork` swap, the layout pass and `requestPaint()`;
  without effects only the swap;
* `ensureRootIsScheduled`, then one `onRecoverableError` callback per queued
  recoverable error, then the re-throw of a stored uncaught error;
* the nested-update counter tail and the closing `flushSyncCallbacks()`. -/
def commitRootImpl (env : WEnv) (finishedWork : Option Nat)
    (recoverableErrors : Option (List Nat)) (ns : NestedState) :
    List Ev × Option Thrown × NestedState :=
  let evs0 := [Ev.flushPassive]
  match finishedWork with
  | none => (evs0, none, ns)
  | some fw =>
    if fw = env.currentTree then
      (evs0, some Thrown.cannotCommitSameTree, ns)
    else
      let evs1 := evs0 ++ (if env.passiveFlagged then [Ev.schedulePassiveCallback] else [])
      let evs2 := evs1 ++
        (if env.effectsPresent then
          [Ev.beforeMutationPass, Ev.mutationPass, Ev.setCurrent fw,
           Ev.layoutPass, Ev.requestPaint]
        else
          [Ev.setCurrent fw])
      let evs3 := evs2 ++ [Ev.ensureScheduled]
      let evs4 := evs3 ++
        (match recoverableErrors with
         | none => []
         | some l => l.map Ev.reportRecoverable)
      if env.hasUncaughtError then
        (evs4, some (Thrown.uncaught env.uncaughtError), ns)
      else
        let ns' := updateNestedCounters env.pendingIncludesSyncAfter env.rootId ns
        (evs4 ++ [Ev.flushSyncCbs], none, ns')

/-- `finishConcurrentRender(root, exitStatus, lanes)` (lines 1159-1295),
given the finished tree content and the recoverable-error queue:
* `RootInProgress`/`RootFatalErrored` throw the "Root did not complete" bug
  error;
* `RootErrored` and `RootCompleted` commit;
* `RootSuspended` marks the root suspended and, when the lanes are
  retries-only and fallbacks are not being force-flushed, computes
  `msUntilTimeout = globalMostRecentFallbackTime + FALLBACK_THROTTLE_MS -
  now()`; when more than 10ms remain it exits early if other work exists
  (`getNextLanes`), pings instead when the suspended lanes are not a subset
  of the rendered lanes, and otherwise schedules the commit on a timeout of
  the remaining window; in every other case it commits immediately;
* `RootSuspendedWithDelay` marks the root suspended, exits for
  transitions-only lanes, and otherwise either waits out the just-noticeable
  difference delay or commits. -/
def finishConcurrentRender (env : WEnv) (status : RootExitStatus)
    (lanes : Lanes) (alternate : Nat) (wipRecov : Option (List Nat))
    (ns : NestedState) : List Ev × Option Thrown × NestedState :=
  match status with
  | RootExitStatus.rootInProgress => ([], some Thrown.bugRootDidNotComplete, ns)
  | RootExitStatus.rootFatalErrored => ([], some Thrown.bugRootDidNotComplete, ns)
  | RootExitStatus.rootErrored =>
    commitRootImpl env (some alternate) wipRecov ns
  | RootExitStatus.rootSuspended =>
    let pre := [Ev.markSuspended lanes]
    if env.includesOnlyRetries lanes && !env.devForceFallbackFlush then
      let msUntilTimeout := env.mostRecentFallbackTime + FALLBACK_THROTTLE_MS - env.now
      if msUntilTimeout > 10 then
        if env.nextLanesAfterSuspense ≠ NoLanes then (pre, none, ns)
        else if !env.suspendedSubset then (pre ++ [Ev.markPinged], none, ns)
        else (pre ++ [Ev.scheduleTimeoutCommit msUntilTimeout], none, ns)
      else
        let c := commitRootImpl env (some alternate) wipRecov ns
        (pre ++ c.1, c.2.1, c.2.2)
    else
      let c := commitRootImpl env (some alternate) wipRecov ns
      (pre ++ c.1, c.2.1, c.2.2)
  | RootExitStatus.rootSuspendedWithDelay =>
    let pre := [Ev.markSuspended lanes]
    if env.includesOnlyTransitions lanes then (pre, none, ns)
    else if !env.devForceFallbackFlush then
      let timeElapsedMs := env.now - env.mostRecentEventTime
      let msUntilTimeout := jnd timeElapsedMs - timeElapsedMs
      if msUntilTimeout > 10 then
        (pre ++ [Ev.scheduleTimeoutCommit msUntilTimeout], none, ns)
      else
        let c := commitRootImpl env (some alternate) wipRecov ns
        (pre ++ c.1, c.2.1, c.2.2)
    else
      let c := commitRootImpl env (some alternate) wipRecov ns
      (pre ++ c.1, c.2.1, c.2.2)
  | RootExitStatus.rootCompleted =>
    commitRootImpl env (some alternate) wipRecov ns
  | RootExitStatus.rootDidNotComplete => ([], some Thrown.unknownExitStatus, ns)

/-- Per-invocation mutable state of the driver: the render-call counter (an
index into `WEnv.renders`), the content of `root.current.alternate`, the
concurrent/recoverable error queues and the stored fatal error. -/
structure WState where
  renderCount : Nat
  alternate : Nat
  wipConc : Option (List Nat)
  wipRecov : Option (List Nat)
  fatal : Nat
deriving DecidableEq

/-- One `renderRootSync` (`sync = true`) or `renderRootConcurrent` call.
The build machinery (`prepareFreshStack`, `workLoopSync`/`workLoopConcurrent`,
`beginWork`, `completeWork`) lives outside this snapshot's work-loop file;
its outcome — the exit status, the tree content left in
`root.current.alternate`, and the post-render error-queue values — is taken
from the environment. -/
def doRender (env : WEnv) (sync : Bool) (lanes : Lanes) (st : WState) :
    List Ev × WState × RootExitStatus :=
  let o := env.renders st.renderCount
  ([Ev.render sync lanes],
   { st with renderCount := st.renderCount + 1,
             alternate := o.tree,
             wipConc := o.concurrentErrors,
             wipRecov := o.recoverableErrors,
             fatal := o.fatalError },
   o.status)

/-- `recoverFromConcurrentError(root, errorRetryLanes)` (lines 1115-1146):
save the first attempt's concurrent errors, force a client render of a
dehydrated root, render synchronously once, and — only when the retry did
not error again — move the first attempt's errors into the recoverable
queue, appending any recoverable errors of the retry itself
(`queueRecoverableErrors`). -/
def recoverFromConcurrentError (env : WEnv) (errorRetryLanes : Lanes)
    (st : WState) : List Ev × WState × RootExitStatus :=
  let errorsFromFirstAttempt := st.wipConc
  let pre := if env.isDehydrated then [Ev.prepareFresh] else []
  let r := doRender env true errorRetryLanes st
  let evs := pre ++ r.1
  let st1 := r.2.1
  let status := r.2.2
  if status ≠ RootExitStatus.rootErrored then
    let errorsFromSecondAttempt := st1.wipRecov
    let st2 := { st1 with wipRecov := errorsFromFirstAttempt }
    match errorsFromSecondAttempt with
    | none => (evs, st2, status)
    | some l2 =>
      match errorsFromFirstAttempt with
      | none => (evs, { st2 with wipRecov := some l2 }, status)
      | some l1 => (evs, { st2 with wipRecov := some (l1 ++ l2) }, status)
  else (evs, st1, status)

/-- `performConcurrentWorkOnRoot(root, didTimeout)` (lines 964-1113):
* flush pending passive effects; exit if that cancelled this task, or if
  `getNextLanes` found nothing;
* render, time-sliced exactly when the lanes contain no blocking lane, no
  expired lane and the scheduler did not report a timeout;
* on `RootErrored`, retry once synchronously over the error-retry lanes
  (when they are non-empty);
* on `RootFatalErrored`, reset the stack, mark the root suspended,
  reschedule, and re-throw the fatal error to the caller;
* on `RootDidNotComplete`, mark the root suspended;
* otherwise run the external-store consistency check for a concurrent
  render, re-rendering the same lanes synchronously on mismatch (with its
  own error-retry and fatal handling), and hand the finished tree to
  `finishConcurrentRender`;
* finally `ensureRootIsScheduled` (skipped when an exception unwound). -/
def performConcurrentWorkOnRoot (env : WEnv) (lanes : Lanes)
    (ns : NestedState) : List Ev × Option Thrown × NestedState :=
  let evs0 := [Ev.flushPassive]
  if env.passiveCanceledCallback then (evs0, none, ns)
  else if lanes = NoLanes then (evs0, none, ns)
  else
    let st0 : WState := ⟨0, 0, none, none, 0⟩
    let shouldTimeSlice :=
      !env.includesBlockingLane lanes && !env.includesExpiredLane lanes &&
        !env.didTimeout
    let r1 := doRender env (!shouldTimeSlice) lanes st0
    let evs1 := evs0 ++ r1.1
    let st1 := r1.2.1
    let status1 := r1.2.2
    if status1 = RootExitStatus.rootInProgress then
      (evs1 ++ [Ev.ensureScheduled], none, ns)
    else
      let step2 : Lanes × List Ev × WState × RootExitStatus :=
        if status1 = RootExitStatus.rootErrored then
          if env.errorRetryLanes ≠ NoLanes then
            let r := recoverFromConcurrentError env env.errorRetryLanes st1
            (env.errorRetryLanes, r.1, r.2.1, r.2.2)
          else (lanes, [], st1, status1)
        else (lanes, [], st1, status1)
      let lanes2 := step2.1
      let evs2 := evs1 ++ step2.2.1
      let st2 := step2.2.2.1
      let status2 := step2.2.2.2
      if status2 = RootExitStatus.rootFatalErrored then
        (evs2 ++ [Ev.prepareFresh, Ev.markSuspended lanes2, Ev.ensureScheduled],
         some (Thrown.fatal st2.fatal), ns)
      else if status2 = RootExitStatus.rootDidNotComplete then
        (evs2 ++ [Ev.markSuspended lanes2, Ev.ensureScheduled], none, ns)
      else
        let renderWasConcurrent := !env.includesBlockingLane lanes2
        let step3 : Lanes × List Ev × WState × RootExitStatus :=
          if renderWasConcurrent then
            if env.consistentWith st2.alternate then
              (lanes2, [Ev.storeCheck true], st2, status2)
            else
              let r := doRender env true lanes2 st2
              if r.2.2 = RootExitStatus.rootErrored then
                if env.errorRetryLanes ≠ NoLanes then
                  let r2 := recoverFromConcurrentError env env.errorRetryLanes r.2.1
                  (env.errorRetryLanes, Ev.storeCheck false :: (r.1 ++ r2.1),
                   r2.2.1, r2.2.2)
                else (lanes2, Ev.storeCheck false :: r.1, r.2.1, r.2.2)
              else (lanes2, Ev.storeCheck false :: r.1, r.2.1, r.2.2)
          else (lanes2, [], st2, status2)
        let lanes3 := step3.1
        let evs3 := evs2 ++ step3.2.1
        let st3 := step3.2.2.1
        let status3 := step3.2.2.2
        if status3 = RootExitStatus.rootFatalErrored then
          (evs3 ++ [Ev.prepareFresh, Ev.markSuspended lanes3, Ev.ensureScheduled],
           some (Thrown.fatal st3.fatal), ns)
        else
          let fin := finishConcurrentRender env status3 lanes3 st3.alternate
            st3.wipRecov ns
          match fin.2.1 with
          | some t => (evs3 ++ fin.1, some t, fin.2.2)
          | none => (evs3 ++ fin.1 ++ [Ev.ensureScheduled], none, fin.2.2)

/-- The events of the three commit sub-passes and the current-pointer swap. -/
def isCommitPassEv : Ev → Bool
  | Ev.beforeMutationPass => true
  | Ev.mutationPass => true
  | Ev.setCurrent _ => true
  | Ev.layoutPass => true
  | _ => false

/-- A trace restricted to commit sub-pass events. -/
def passEvents (l : List Ev) : List Ev := l.filter isCommitPassEv

/-- The render calls of a trace, with their strategy (`true` = synchronous)
and lanes. -/
def renderEvents : List Ev → List (Bool × Lanes)
  | [] => []
  | Ev.render sync lanes :: rest => (sync, lanes) :: renderEvents rest
  | _ :: rest => renderEvents rest

/-- The trees published by `root.current = finishedWork` swaps in a trace. -/
def setCurrentEvents : List Ev → List Nat
  | [] => []
  | Ev.setCurrent t :: rest => t :: setCurrentEvents rest
  | _ :: rest => setCurrentEvents rest

/-- The errors handed to the root's `onRecoverableError` callback in a
trace. -/
def reportedErrors : List Ev → List Nat
  | [] => []
  | Ev.reportRecoverable e :: rest => e :: reportedErrors rest
  | _ :: rest => reportedErrors rest

/-- `n` further consecutive commits that each leave synchronous-lane work
pending on the root `rootId` (each running the tail of `commitRootImpl`). -/
def iterNestedCommits (rootId : Nat) : Nat → NestedState → NestedState
  | 0, s => s
  | n + 1, s => iterNestedCommits rootId n (updateNestedCounters true rootId s)

/-- The build-phase cursor state touched by `handleError`. -/
structure BuildState where
  workInProgress : Option Nat
  exitStatus : RootExitStatus
  fatalError : Option Nat
deriving DecidableEq

/-- `handleError(root, thrownValue)` (lines 1665-1748), one pass of its
loop body.  `erroredWorkHasAncestor` is the negation of the guard
`erroredWork === null || erroredWork.return === null`: when the errored unit
of work has no parent — no ancestor at all that could handle the value — the
exit status becomes `RootFatalErrored`, the thrown value is stored as the
fatal error and the cursor is cleared; otherwise `throwException` walks the
ancestors (code outside this snapshot, supplied as `afterThrowException`). -/
def handleError (erroredWorkHasAncestor : Bool) (thrownValue : Nat)
    (afterThrowException : BuildState) (s : BuildState) : BuildState :=
  if !erroredWorkHasAncestor then
    { s with exitStatus := RootExitStatus.rootFatalErrored,
             fatalError := some thrownValue, workInProgress := none }
  else afterThrowException

/-! ## Concrete instances used to evaluate the embedding -/

/-- A baseline environment: a healthy concurrent render of tree 2 over a
root whose current tree is 1. -/
def wenvA : WEnv :=
  { rootId := 0
    currentTree := 1
    includesBlockingLane := fun _ => false
    includesExpiredLane := fun _ => false
    didTimeout := false
    passiveCanceledCallback := false
    isDehydrated := false
    renders := fun _ => ⟨RootExitStatus.rootCompleted, 2, none, none, 0⟩
    errorRetryLanes := 0
    consistentWith := fun _ => true
    includesOnlyRetries := fun _ => false
    includesOnlyTransitions := fun _ => false
    devForceFallbackFlush := false
    now := 1000
    mostRecentFallbackTime := 900
    mostRecentEventTime := 0
    nextLanesAfterSuspense := 0
    suspendedSubset := true
    effectsPresent := true
    passiveFlagged := false
    hasUncaughtError := false
    uncaughtError := 0
    pendingIncludesSyncAfter := false }

/-- Both the concurrent render and the synchronous retry error; the retry
leaves one recoverable error (8) queued. -/
def wenvErr : WEnv :=
  { wenvA with
      renders := fun _ => ⟨RootExitStatus.rootErrored, 2, some [7], some [8], 0⟩
      errorRetryLanes := 2 }

/-- The concurrent render of tree 2 completes but reads a torn external
store; the synchronous re-render produces tree 3, which is consistent. -/
def wenvStore : WEnv :=
  { wenvA with
      renders := fun k =>
        if k = 0 then ⟨RootExitStatus.rootCompleted, 2, none, none, 0⟩
        else ⟨RootExitStatus.rootCompleted, 3, none, none, 0⟩
      consistentWith := fun t => t == 3 }

/-- The concurrent render dies with fatal error 9. -/
def wenvFatal : WEnv :=
  { wenvA with
      renders := fun _ => ⟨RootExitStatus.rootFatalErrored, 2, none, none, 9⟩ }

/-- A retries-only suspended render 400ms into the fallback throttle
window. -/
def wenvRetry : WEnv :=
  { wenvA with includesOnlyRetries := fun _ => true }

/-- A normal-priority task whose deadline (10) is still ahead of the clock
at invocation time. -/
def taskA : STask :=
  { id := 1, callback := some 10, priorityLevel := 3, startTime := 0,
    expirationTime := 10, sortIndex := 10 }

/-- An urgent task the callback of `taskA` schedules mid-invocation; its
`sortIndex` (5) places it ahead of `taskA`. -/
def taskB : STask :=
  { id := 2, callback := some 11, priorityLevel := 1, startTime := 0,
    expirationTime := 5, sortIndex := 5 }

/-- A work-loop iteration in which `taskA`'s callback returns a non-function
but schedules `taskB` ahead of it. -/
def stepDisplaced : StepIn :=
  { taskQ := [taskA], timerQ := [], currentTime := 0, hasTimeRemaining := true,
    shouldYield := false, contResult := none, pushedTasks := [taskB],
    timeAfterCallback := 1 }

/-- A work-loop iteration in which `taskA`'s callback (running past its
deadline) returns a continuation (12). -/
def stepContinued : StepIn :=
  { taskQ := [taskA], timerQ := [], currentTime := 20, hasTimeRemaining := true,
    shouldYield := false, contResult := some 12, pushedTasks := [],
    timeAfterCallback := 21 }

/-! ## Theorems -/

theorem sched_fst_startTime (t : Int) (p : Nat) (delay : Option Int)
    (i c : Nat) :
    (unstable_scheduleCallback t p delay i c).1.startTime =
      schedStartTime t delay := by
  unfold unstable_scheduleCallback
  split <;> rfl

theorem sched_fst_expirationTime (t : Int) (p : Nat) (delay : Option Int)
    (i c : Nat) :
    (unstable_scheduleCallback t p delay i c).1.expirationTime =
      schedStartTime t delay + timeoutForPriority p := by
  unfold unstable_scheduleCallback
  split <;> rfl

/-- Claim C4: for every call to the scheduler's
`scheduleCallback(priorityLevel, callback, options)`, the new task's
`startTime` equals `now + delay` when a positive numeric delay is given and
`now` otherwise; its `expirationTime` equals `startTime + timeout`, where the
timeout is -1 for immediate priority, 250 for user-blocking, 5000 for normal
and any unknown level, 10000 for low, and 1073741823 for idle; if
`startTime > now` the task goes to the timer heap with
`sortIndex = startTime`, otherwise to the ready task heap with
`sortIndex = expirationTime`. -/
theorem scheduleCallback_times_and_queue (currentTime : Int)
    (priorityLevel : Nat) (delay : Option Int) (taskId cb : Nat) :
    (∀ d : Int, delay = some d → 0 < d →
      (unstable_scheduleCallback currentTime priorityLevel delay taskId cb).1.startTime =
        currentTime + d) ∧
    (∀ d : Int, delay = some d → d ≤ 0 →
      (unstable_scheduleCallback currentTime priorityLevel delay taskId cb).1.startTime =
        currentTime) ∧
    (delay = none →
      (unstable_scheduleCallback currentTime priorityLevel delay taskId cb).1.startTime =
        currentTime) ∧
    (unstable_scheduleCallback currentTime priorityLevel delay taskId cb).1.expirationTime =
      (unstable_scheduleCallback currentTime priorityLevel delay taskId cb).1.startTime +
        timeoutForPriority priorityLevel ∧
    timeoutForPriority ImmediatePriority = -1 ∧
    timeoutForPriority UserBlockingPriority = 250 ∧
    timeoutForPriority NormalPriority = 5000 ∧
    timeoutForPriority LowPriority = 10000 ∧
    timeoutForPriority IdlePriority = 1073741823 ∧
    (priorityLevel ≠ ImmediatePriority → priorityLevel ≠ UserBlockingPriority →
      priorityLevel ≠ LowPriority → priorityLevel ≠ IdlePriority →
      timeoutForPriority priorityLevel = 5000) ∧
    ((unstable_scheduleCallback currentTime priorityLevel delay taskId cb).1.startTime >
        currentTime →
      (unstable_scheduleCallback currentTime priorityLevel delay taskId cb).2 =
          QueueChoice.timerQueue ∧
        (unstable_scheduleCallback currentTime priorityLevel delay taskId cb).1.sortIndex =
          (unstable_scheduleCallback currentTime priorityLevel delay taskId cb).1.startTime) ∧
    ((unstable_scheduleCallback currentTime priorityLevel delay taskId cb).1.startTime ≤
        currentTime →
      (unstable_scheduleCallback currentTime priorityLevel delay taskId cb).2 =
          QueueChoice.taskQueue ∧
        (unstable_scheduleCallback currentTime priorityLevel delay taskId cb).1.sortIndex =
          (unstable_scheduleCallback currentTime priorityLevel delay taskId cb).1.expirationTime) := by
  refine ⟨?_, ?_, ?_, ?_, rfl, rfl, rfl, rfl, rfl, ?_, ?_, ?_⟩
  · rintro d rfl hd
    rw [sched_fst_startTime]
    simp [schedStartTime, hd]
  · rintro d rfl hd
    rw [sched_fst_startTime]
    simp only [schedStartTime]
    rw [if_neg (by omega)]
  · rintro rfl
    rw [sched_fst_startTime]
    rfl
  · rw [sched_fst_expirationTime, sched_fst_startTime]
  · intro h1 h2 h3 h4
    simp [timeoutForPriority, NORMAL_PRIORITY_TIMEOUT, h1, h2, h3, h4]
  · intro h
    rw [sched_fst_startTime] at h
    simp only [unstable_scheduleCallback, if_pos h]
    constructor <;> trivial
  · intro h
    rw [sched_fst_startTime] at h
    simp only [unstable_scheduleCallback, if_neg (not_lt.mpr h)]
    constructor <;> trivial

/-- Witness for C4: at `now = 100`, user-blocking priority and a delay of 7,
the task starts at 107, expires at 357, and is pushed into the timer heap
with `sortIndex = 107`. -/
theorem scheduleCallback_times_and_queue_witness :
    (unstable_scheduleCallback 100 UserBlockingPriority (some 7) 1 2).1.startTime = 107 ∧
    (unstable_scheduleCallback 100 UserBlockingPriority (some 7) 1 2).2 =
      QueueChoice.timerQueue ∧
    (unstable_scheduleCallback 100 UserBlockingPriority (some 7) 1 2).1.sortIndex = 107 := by
  have h := scheduleCallback_times_and_queue 100 UserBlockingPriority (some 7) 1 2
  refine ⟨h.1 7 rfl (by decide), ?_, ?_⟩
  · exact (h.2.2.2.2.2.2.2.2.2.2.1 (by decide)).1
  · have hs := (h.2.2.2.2.2.2.2.2.2.2.1 (by decide)).2
    rw [hs, h.1 7 rfl (by decide)]
    decide

/-- Claim C8 (amended): `shouldYield` returns false while the elapsed time
since the work-slice start is below the frame budget; with the input-pending
feature disabled (the shipped configuration) it returns true as soon as the
budget is reached; with the feature enabled, no paint pending and the probe
available it defers to the input-pending signal inside the 50ms window; and
it returns true once the elapsed time reaches the 300ms ceiling provided the
frame budget does not exceed that ceiling — which holds at the default 5ms
budget, but `forceFrameRate` can raise the budget past the ceiling, and then
`shouldYield` stays false below the budget. -/
theorem shouldYieldToHost_budget_and_ceiling (env : YieldEnv)
    (frameInterval timeElapsed : Int) :
    (timeElapsed < frameInterval →
      shouldYieldToHost env frameInterval timeElapsed = false) ∧
    (frameInterval ≤ timeElapsed → env.enableIsInputPending = false →
      shouldYieldToHost env frameInterval timeElapsed = true) ∧
    (frameInterval ≤ timeElapsed → env.enableIsInputPending = true →
      env.needsPaint = false → env.inputPendingAvailable = true →
      timeElapsed < continuousYieldMs →
      shouldYieldToHost env frameInterval timeElapsed = env.inputPending) ∧
    (maxYieldMs ≤ timeElapsed → frameInterval ≤ maxYieldMs →
      shouldYieldToHost env frameInterval timeElapsed = true) := by
  refine ⟨?_, ?_, ?_, ?_⟩
  · intro h
    simp [shouldYieldToHost, h]
  · intro h he
    simp [shouldYieldToHost, not_lt.mpr h, he]
  · intro h he hnp hav hc
    simp [shouldYieldToHost, not_lt.mpr h, he, hnp, hav, hc]
  · intro h hf
    have h1 : ¬ timeElapsed < frameInterval := by omega
    have h3 : ¬ timeElapsed < maxYieldMs := not_lt.mpr h
    have h2 : ¬ timeElapsed < continuousYieldMs := by
      simp only [maxYieldMs] at h
      simp only [continuousYieldMs]
      omega
    simp [shouldYieldToHost, h1, h2, h3]

/-- Witness for C8: with the shipped input-pending configuration and the
default 5ms budget, `shouldYield` is false at 2ms elapsed and true at 7ms. -/
theorem shouldYieldToHost_budget_and_ceiling_witness :
    shouldYieldToHost ⟨false, false, false, false, false⟩ 5 2 = false ∧
    shouldYieldToHost ⟨false, false, false, false, false⟩ 5 7 = true :=
  ⟨(shouldYieldToHost_budget_and_ceiling ⟨false, false, false, false, false⟩ 5 2).1
      (by decide),
   (shouldYieldToHost_budget_and_ceiling ⟨false, false, false, false, false⟩ 5 7).2.1
      (by decide) rfl⟩

/-- Claim C8 counterexample: `forceFrameRate(3)` legally raises the frame
budget to `Math.floor(1000 / 3) = 333`ms; at 310ms elapsed — past the
claimed hard 300ms ceiling — `shouldYield` still returns false, refuting
"always returns true once elapsed time reaches the hard ceiling of
300ms". -/
theorem shouldYieldToHost_ceiling_counterexample :
    forceFrameRate 3 frameYieldMs = 333 ∧
    maxYieldMs ≤ 310 ∧
    shouldYieldToHost ⟨false, false, false, false, false⟩
      (forceFrameRate 3 frameYieldMs) 310 = false := by
  refine ⟨by decide, by decide, by decide⟩

theorem iterNested_tracked (rootId : Nat) (n : Nat) :
    ∀ s : NestedState, s.rootWithNestedUpdates = some rootId →
      (iterNestedCommits rootId n s).nestedUpdateCount =
          s.nestedUpdateCount + n ∧
        (iterNestedCommits rootId n s).rootWithNestedUpdates = some rootId := by
  induction n with
  | zero => exact fun s hs => ⟨rfl, hs⟩
  | succ n ih =>
    intro s hs
    have hstep : updateNestedCounters true rootId s =
        { s with nestedUpdateCount := s.nestedUpdateCount + 1 } := by
      simp [updateNestedCounters, hs]
    have hs2 : ({ s with nestedUpdateCount := s.nestedUpdateCount + 1 } :
        NestedState).rootWithNestedUpdates = some rootId := hs
    have hrec := ih { s with nestedUpdateCount := s.nestedUpdateCount + 1 } hs2
    refine ⟨?_, ?_⟩
    · show (iterNestedCommits rootId n
          (updateNestedCounters true rootId s)).nestedUpdateCount =
        s.nestedUpdateCount + (n + 1)
      rw [hstep, hrec.1]
      simp
      omega
    · show (iterNestedCommits rootId n
          (updateNestedCounters true rootId s)).rootWithNestedUpdates =
        some rootId
      rw [hstep]
      exact hrec.2

/-- Claim C3 (amended): for every sequence of commits on one root in which
each commit leaves synchronous-lane work pending on that same root, the
first such commit starts tracking the root with the counter at zero and each
subsequent one increments the counter once, so after the 51st consecutive
nested synchronous re-render the counter exceeds the fixed limit of 50 and
`throwIfInfiniteUpdateLoopDetected` throws the 'Maximum update depth
exceeded' error; the passive-effect nested-update counter, by contrast,
never triggers this hard throw (its overflow only produces a
development-mode console error). -/
theorem nested_update_loop_guard (s0 : NestedState) (rootId n : Nat)
    (hroot : s0.rootWithNestedUpdates ≠ some rootId) :
    (updateNestedCounters true rootId s0).nestedUpdateCount = 0 ∧
    (∀ s : NestedState, s.rootWithNestedUpdates = some rootId →
      (updateNestedCounters true rootId s).nestedUpdateCount =
        s.nestedUpdateCount + 1) ∧
    (iterNestedCommits rootId n
        (updateNestedCounters true rootId s0)).nestedUpdateCount = n ∧
    ((throwIfInfiniteUpdateLoopDetected (iterNestedCommits rootId n
        (updateNestedCounters true rootId s0))).1 =
        some Thrown.maxUpdateDepth ↔ 50 < n) ∧
    (∀ s : NestedState, s.nestedUpdateCount ≤ NESTED_UPDATE_LIMIT →
      (throwIfInfiniteUpdateLoopDetected s).1 = none) := by
  have hfirst : updateNestedCounters true rootId s0 =
      { s0 with nestedUpdateCount := 0,
                rootWithNestedUpdates := some rootId } := by
    simp [updateNestedCounters, hroot]
  have hiter := iterNested_tracked rootId n (updateNestedCounters true rootId s0)
    (by rw [hfirst])
  have hcount : (iterNestedCommits rootId n
      (updateNestedCounters true rootId s0)).nestedUpdateCount = n := by
    rw [hiter.1, hfirst]
    simp
  refine ⟨by rw [hfirst], ?_, hcount, ?_, ?_⟩
  · intro s hs
    simp [updateNestedCounters, hs]
  · unfold throwIfInfiniteUpdateLoopDetected
    rw [hcount]
    by_cases h : 50 < n
    · simp [NESTED_UPDATE_LIMIT, h]
    · simp [NESTED_UPDATE_LIMIT, h]
  · intro s hs
    simp [throwIfInfiniteUpdateLoopDetected, Nat.not_lt.mpr hs]

/-- Witness for C3: from a fresh state, after the initial tracked commit and
51 consecutive nested synchronous re-renders, the counter is 51 and the
guard throws the maximum-update-depth error. -/
theorem nested_update_loop_guard_witness :
    (iterNestedCommits 0 51
        (updateNestedCounters true 0 ⟨0, none, 0, none⟩)).nestedUpdateCount = 51 ∧
    (throwIfInfiniteUpdateLoopDetected (iterNestedCommits 0 51
        (updateNestedCounters true 0 ⟨0, none, 0, none⟩))).1 =
      some Thrown.maxUpdateDepth := by
  have h := nested_update_loop_guard ⟨0, none, 0, none⟩ 0 51 (by decide)
  exact ⟨h.2.2.1, h.2.2.2.1.mpr (by decide)⟩

/-- Claim C3 counterexample: the passive-effect nested-update counter stands
at 51, beyond its fixed limit of 50 — the state a passive-effect-triggered
update loop reaches — yet `throwIfInfiniteUpdateLoopDetected` does not
throw (the synchronous counter is 0): in the code the passive counter only
feeds a development-mode `console.error`, refuting the claim that "the same
hard throw also applies to passive-effect-triggered update loops". -/
theorem nested_update_loop_passive_counterexample :
    NESTED_PASSIVE_UPDATE_LIMIT < 51 ∧
    (throwIfInfiniteUpdateLoopDetected ⟨0, none, 51, some 0⟩).1 = none :=
  ⟨by decide, by decide⟩

theorem filter_pass_map_reportRecoverable (l : List Nat) :
    List.filter isCommitPassEv (l.map Ev.reportRecoverable) = [] := by
  induction l with
  | nil => rfl
  | cons a l ih => simp [isCommitPassEv, ih]

/-- Claim C1: during every commit with effects, the commit phase performs,
in this strict order, the before-mutation pass, the mutation pass, the
`root.current = finishedWork` swap, and the layout pass — so the current
pointer is never swapped before the mutation pass completes and never after
any layout-pass hook has run. -/
theorem commit_subpass_order (env : WEnv) (fw : Nat)
    (recov : Option (List Nat)) (ns : NestedState)
    (hfw : fw ≠ env.currentTree) (heff : env.effectsPresent = true) :
    passEvents (commitRootImpl env (some fw) recov ns).1 =
      [Ev.beforeMutationPass, Ev.mutationPass, Ev.setCurrent fw,
       Ev.layoutPass] := by
  simp only [commitRootImpl]
  rw [if_neg hfw]
  rcases recov with _ | l <;> split_ifs <;>
    simp_all [passEvents, isCommitPassEv, List.filter_append,
      filter_pass_map_reportRecoverable]

/-- Witness for C1: a concrete commit of tree 2 over current tree 1 with
effects present produces exactly the four ordered sub-pass events. -/
theorem commit_subpass_order_witness :
    passEvents (commitRootImpl wenvA (some 2) none ⟨0, none, 0, none⟩).1 =
      [Ev.beforeMutationPass, Ev.mutationPass, Ev.setCurrent 2,
       Ev.layoutPass] :=
  commit_subpass_order wenvA 2 none ⟨0, none, 0, none⟩ (by decide) rfl

/-- Claim C10: if the finished work-in-progress tree handed to
`commitRootImpl` is the very same tree as the root's current tree, the
commit throws 'Cannot commit the same tree as before' before running any of
the commit sub-passes; consequently every tree that is successfully
published as current differs from the previously current tree. -/
theorem commit_rejects_same_tree (env : WEnv) (recov : Option (List Nat))
    (ns : NestedState) :
    ((commitRootImpl env (some env.currentTree) recov ns).2.1 =
        some Thrown.cannotCommitSameTree ∧
      passEvents (commitRootImpl env (some env.currentTree) recov ns).1 = []) ∧
    (∀ (fw : Option Nat) (t : Nat),
      Ev.setCurrent t ∈ (commitRootImpl env fw recov ns).1 →
      t ≠ env.currentTree) := by
  constructor
  · constructor
    · simp [commitRootImpl]
    · simp [commitRootImpl, passEvents, isCommitPassEv]
  · intro fw t hmem
    rcases fw with _ | fw
    · simp [commitRootImpl] at hmem
    · by_cases hfc : fw = env.currentTree
      · simp [commitRootImpl, hfc] at hmem
      · intro ht
        apply hfc
        rw [← ht]
        simp only [commitRootImpl] at hmem
        rw [if_neg hfc] at hmem
        rcases recov with _ | l <;> split_ifs at hmem <;>
          simp_all [List.mem_append, List.mem_map, isCommitPassEv]

/-- Witness for C10: committing current tree 1 onto itself throws with no
sub-pass executed, and a successful commit publishes a different tree. -/
theorem commit_rejects_same_tree_witness :
    (commitRootImpl wenvA (some wenvA.currentTree) none
        ⟨0, none, 0, none⟩).2.1 = some Thrown.cannotCommitSameTree ∧
    (2 : Nat) ≠ wenvA.currentTree := by
  have h := commit_rejects_same_tree wenvA none ⟨0, none, 0, none⟩
  exact ⟨h.1.1, h.2 (some 2) 2 (by decide)⟩

theorem mem_heapPush (q : List STask) (t a : STask) (ha : a ∈ q) :
    a ∈ heapPush q t := by
  induction q with
  | nil => cases ha
  | cons x xs ih =>
    simp only [heapPush]
    split
    · exact List.mem_cons_of_mem _ ha
    · rcases List.mem_cons.mp ha with h | h
      · exact h ▸ List.mem_cons_self _ _
      · exact List.mem_cons_of_mem _ (ih h)

theorem mem_foldl_heapPush (ts : List STask) :
    ∀ (q : List STask) (a : STask), a ∈ q → a ∈ ts.foldl heapPush q := by
  induction ts with
  | nil => exact fun _ _ ha => ha
  | cons t ts ih => exact fun q a ha => ih _ _ (mem_heapPush q t a ha)

theorem mem_advanceTimers_taskQ (now : Int) (tq : List STask) :
    ∀ (q : List STask) (a : STask), a ∈ q → a ∈ (advanceTimers now tq q).2 := by
  induction tq with
  | nil => exact fun _ _ ha => ha
  | cons t rest ih =>
    intro q a ha
    simp only [advanceTimers]
    split
    · exact ih q a ha
    · split
      · exact ih _ a (mem_heapPush _ _ _ ha)
      · exact ha

theorem setTaskCallback_mem (q : List STask) (tid : Nat) (c : Option Nat)
    (x : STask) (hx : x ∈ q) (hid : x.id = tid) :
    { x with callback := c } ∈ setTaskCallback q tid c := by
  unfold setTaskCallback
  refine List.mem_map.mpr ⟨x, hx, ?_⟩
  rw [if_pos hid]

/-- Claim C5 (amended): in the scheduler's `workLoop`, for every task whose
callback is invoked: the callback receives a boolean flag that is true
exactly when the task's `expirationTime` is ≤ the current time; if the
callback returns a function, that function is stored back as the task's
callback and the task is not popped from the ready heap, so it is resumed on
a later iteration or slice; if the callback returns a non-function, the
task's callback stays cleared and the task is popped only when it is still
at the head of the ready heap after the callback ran — a task displaced from
the head by tasks the callback scheduled remains in the heap with a null
callback, to be discarded lazily when it next reaches the head. -/
theorem workLoop_step_protocol (s : StepIn) (task : STask)
    (hpeek : heapPeek s.taskQ = some task)
    (hcb : task.callback ≠ none)
    (hnobreak : (decide (task.expirationTime > s.currentTime) &&
      (!s.hasTimeRemaining || s.shouldYield)) = false) :
    (workLoopStep s).kind =
      StepKind.invoked (decide (task.expirationTime ≤ s.currentTime)) ∧
    (∀ c : Nat, s.contResult = some c →
      { task with callback := some c } ∈ (workLoopStep s).taskQ) ∧
    (s.contResult = none → s.pushedTasks = [] → s.timerQ = [] →
      (workLoopStep s).taskQ =
        heapPop (setTaskCallback s.taskQ task.id none)) ∧
    (s.contResult = none →
      (heapPeek (s.pushedTasks.foldl heapPush
          (setTaskCallback s.taskQ task.id none))).map STask.id ≠
        some task.id →
      { task with callback := none } ∈ (workLoopStep s).taskQ) := by
  obtain ⟨rest, hq⟩ : ∃ rest, s.taskQ = task :: rest := by
    cases hQ : s.taskQ with
    | nil => rw [hQ] at hpeek; exact absurd hpeek (by simp [heapPeek])
    | cons a l =>
      rw [hQ] at hpeek
      have ha : a = task := by simpa [heapPeek] using hpeek
      subst ha
      exact ⟨l, rfl⟩
  obtain ⟨cb0, hcb'⟩ : ∃ x, task.callback = some x :=
    Option.ne_none_iff_exists'.mp hcb
  have hmemq1 : ({ task with callback := none } : STask) ∈
      setTaskCallback s.taskQ task.id none :=
    setTaskCallback_mem s.taskQ task.id none task
      (hq ▸ List.mem_cons_self _ _) rfl
  have hmemq2 : ({ task with callback := none } : STask) ∈
      s.pushedTasks.foldl heapPush (setTaskCallback s.taskQ task.id none) :=
    mem_foldl_heapPush _ _ _ hmemq1
  have hstep : workLoopStep s =
      ⟨StepKind.invoked (decide (task.expirationTime ≤ s.currentTime)),
       (advanceTimers s.timeAfterCallback s.timerQ
         (match s.contResult with
          | some c =>
            setTaskCallback (s.pushedTasks.foldl heapPush
              (setTaskCallback s.taskQ task.id none)) task.id (some c)
          | none =>
            if (heapPeek (s.pushedTasks.foldl heapPush
                (setTaskCallback s.taskQ task.id none))).map STask.id =
                some task.id then
              heapPop (s.pushedTasks.foldl heapPush
                (setTaskCallback s.taskQ task.id none))
            else
              s.pushedTasks.foldl heapPush
                (setTaskCallback s.taskQ task.id none))).2,
       (advanceTimers s.timeAfterCallback s.timerQ
         (match s.contResult with
          | some c =>
            setTaskCallback (s.pushedTasks.foldl heapPush
              (setTaskCallback s.taskQ task.id none)) task.id (some c)
          | none =>
            if (heapPeek (s.pushedTasks.foldl heapPush
                (setTaskCallback s.taskQ task.id none))).map STask.id =
                some task.id then
              heapPop (s.pushedTasks.foldl heapPush
                (setTaskCallback s.taskQ task.id none))
            else
              s.pushedTasks.foldl heapPush
                (setTaskCallback s.taskQ task.id none))).1⟩ := by
    simp only [workLoopStep, hpeek, hnobreak, hcb']
    simp
  refine ⟨by rw [hstep], ?_, ?_, ?_⟩
  · intro c hc
    rw [hstep, hc]
    exact mem_advanceTimers_taskQ _ _ _ _
      (setTaskCallback_mem _ task.id (some c) { task with callback := none }
        hmemq2 rfl)
  · intro h1 h2 h3
    rw [hstep, h1, h2, h3]
    simp only [List.foldl_nil, advanceTimers]
    rw [if_pos]
    rw [hq]
    simp [setTaskCallback, heapPeek]
  · intro h1 hne
    rw [hstep, h1]
    simp only [if_neg hne]
    exact mem_advanceTimers_taskQ _ _ _ _ hmemq2

/-- Witness for C5: a callback invoked past its deadline receives flag
`true`; returning continuation 12 stores it back on the task, which stays in
the ready heap. -/
theorem workLoop_step_protocol_witness :
    (workLoopStep stepContinued).kind = StepKind.invoked true ∧
    { taskA with callback := some 12 } ∈ (workLoopStep stepContinued).taskQ := by
  have h := workLoop_step_protocol stepContinued taskA rfl (by decide) (by decide)
  refine ⟨?_, h.2.1 12 rfl⟩
  rw [h.1]
  decide

/-- Claim C5 counterexample: the callback of `taskA` returns a non-function
but schedules the more urgent `taskB`; the re-peek guard
`currentTask === peek(taskQueue)` then fails, and `taskA` is NOT removed
from the ready heap — refuting "if the callback returns a non-function, the
task is removed from the ready heap". -/
theorem workLoop_step_displaced_counterexample :
    stepDisplaced.contResult = none ∧
    (workLoopStep stepDisplaced).kind = StepKind.invoked false ∧
    { taskA with callback := none } ∈ (workLoopStep stepDisplaced).taskQ :=
  ⟨rfl, by decide, by decide⟩

theorem renderEvents_append (l1 l2 : List Ev) :
    renderEvents (l1 ++ l2) = renderEvents l1 ++ renderEvents l2 := by
  induction l1 with
  | nil => rfl
  | cons e rest ih => cases e <;> simp [renderEvents, ih]

theorem setCurrentEvents_append (l1 l2 : List Ev) :
    setCurrentEvents (l1 ++ l2) = setCurrentEvents l1 ++ setCurrentEvents l2 := by
  induction l1 with
  | nil => rfl
  | cons e rest ih => cases e <;> simp [setCurrentEvents, ih]

theorem reportedErrors_append (l1 l2 : List Ev) :
    reportedErrors (l1 ++ l2) = reportedErrors l1 ++ reportedErrors l2 := by
  induction l1 with
  | nil => rfl
  | cons e rest ih => cases e <;> simp [reportedErrors, ih]

theorem renderEvents_map_report (l : List Nat) :
    renderEvents (l.map Ev.reportRecoverable) = [] := by
  induction l with
  | nil => rfl
  | cons a l ih => simp [renderEvents, ih]

theorem setCurrentEvents_map_report (l : List Nat) :
    setCurrentEvents (l.map Ev.reportRecoverable) = [] := by
  induction l with
  | nil => rfl
  | cons a l ih => simp [setCurrentEvents, ih]

theorem reportedErrors_map_report (l : List Nat) :
    reportedErrors (l.map Ev.reportRecoverable) = l := by
  induction l with
  | nil => rfl
  | cons a l ih => simp [reportedErrors, ih]

theorem commit_trace_renderEvents (env : WEnv) (fw : Option Nat)
    (recov : Option (List Nat)) (ns : NestedState) :
    renderEvents (commitRootImpl env fw recov ns).1 = [] := by
  rcases fw with _ | fw <;> rcases recov with _ | l <;>
    simp only [commitRootImpl] <;> (try split_ifs) <;>
    simp [renderEvents, renderEvents_append, renderEvents_map_report]

theorem commit_trace_published (env : WEnv) (fw : Nat)
    (recov : Option (List Nat)) (ns : NestedState)
    (hfw : fw ≠ env.currentTree) :
    setCurrentEvents (commitRootImpl env (some fw) recov ns).1 = [fw] := by
  rcases recov with _ | l <;>
    (simp only [commitRootImpl]; rw [if_neg hfw]; split_ifs <;>
      simp [setCurrentEvents, setCurrentEvents_append,
        setCurrentEvents_map_report])

theorem commit_trace_reported (env : WEnv) (fw : Nat) (l : List Nat)
    (ns : NestedState) (hfw : fw ≠ env.currentTree) :
    reportedErrors (commitRootImpl env (some fw) (some l) ns).1 = l := by
  simp only [commitRootImpl]
  rw [if_neg hfw]
  split_ifs <;>
    simp [reportedErrors, reportedErrors_append, reportedErrors_map_report]

theorem commit_trace_no_throw (env : WEnv) (fw : Nat)
    (recov : Option (List Nat)) (ns : NestedState)
    (hfw : fw ≠ env.currentTree) (hunc : env.hasUncaughtError = false) :
    (commitRootImpl env (some fw) recov ns).2.1 = none := by
  simp only [commitRootImpl]
  rw [if_neg hfw]
  simp [hunc]

/-- Claim C7: when an error thrown during the build phase unwinds with no
ancestor able to handle it — the errored unit of work has no parent — the
root captures it: `handleError` records the thrown value as the fatal error,
clears the work-in-progress cursor and makes the build's terminal state
`RootFatalErrored`; `performConcurrentWorkOnRoot` then resets the stack,
marks the rendered lanes suspended, reschedules, and re-throws the error
synchronously to its caller — committing nothing and performing no further
render in that attempt (a fresh attempt must start from scratch). -/
theorem fatal_error_rethrown (env : WEnv) (lanes : Lanes) (ns : NestedState)
    (bs after : BuildState) (e : Nat)
    (hpc : env.passiveCanceledCallback = false)
    (hl : lanes ≠ NoLanes)
    (hst : (env.renders 0).status = RootExitStatus.rootFatalErrored)
    (hfe : (env.renders 0).fatalError = e) :
    (handleError false e after bs).exitStatus =
      RootExitStatus.rootFatalErrored ∧
    (handleError false e after bs).fatalError = some e ∧
    (handleError false e after bs).workInProgress = none ∧
    (performConcurrentWorkOnRoot env lanes ns).2.1 = some (Thrown.fatal e) ∧
    (renderEvents (performConcurrentWorkOnRoot env lanes ns).1).length = 1 ∧
    setCurrentEvents (performConcurrentWorkOnRoot env lanes ns).1 = [] ∧
    Ev.prepareFresh ∈ (performConcurrentWorkOnRoot env lanes ns).1 ∧
    Ev.markSuspended lanes ∈ (performConcurrentWorkOnRoot env lanes ns).1 := by
  have hdrv : performConcurrentWorkOnRoot env lanes ns =
      ([Ev.flushPassive,
        Ev.render (!(!env.includesBlockingLane lanes &&
          !env.includesExpiredLane lanes && !env.didTimeout)) lanes,
        Ev.prepareFresh, Ev.markSuspended lanes, Ev.ensureScheduled],
       some (Thrown.fatal e), ns) := by
    simp [performConcurrentWorkOnRoot, doRender, hpc, hl, hst, hfe]
  refine ⟨rfl, rfl, rfl, ?_, ?_, ?_, ?_, ?_⟩ <;> rw [hdrv] <;>
    simp [renderEvents, setCurrentEvents]

/-- Witness for C7: with a render that dies fatally with error 9, the driver
re-throws `fatal 9`, and `handleError` at a parentless unit of work marks
the build fatally errored. -/
theorem fatal_error_rethrown_witness :
    (performConcurrentWorkOnRoot wenvFatal 4 ⟨0, none, 0, none⟩).2.1 =
      some (Thrown.fatal 9) ∧
    (handleError false 9 ⟨none, RootExitStatus.rootInProgress, none⟩
        ⟨none, RootExitStatus.rootInProgress, none⟩).exitStatus =
      RootExitStatus.rootFatalErrored := by
  have h := fatal_error_rethrown wenvFatal 4 ⟨0, none, 0, none⟩
    ⟨none, RootExitStatus.rootInProgress, none⟩
    ⟨none, RootExitStatus.rootInProgress, none⟩ 9 rfl (by decide) rfl rfl
  exact ⟨h.2.2.2.1, h.1⟩

/-- Claim C9: when a concurrent build finishes `RootSuspended` with lanes
that include only retries, no other pending work on the root (nothing from
`getNextLanes`, and the suspended lanes within the rendered ones), fallbacks
not force-flushed, and more than 10ms remaining of the 500ms throttle window
since the most recent fallback commit, the engine commits nothing now: it
schedules the commit on a timeout of exactly the remaining window, which
fires at `mostRecentFallbackTime + 500` — the end of the throttle window —
so no fallback is committed inside the window in that case. -/
theorem suspended_fallback_throttled (env : WEnv) (lanes : Lanes)
    (alternate : Nat) (recov : Option (List Nat)) (ns : NestedState)
    (hr : env.includesOnlyRetries lanes = true)
    (hdev : env.devForceFallbackFlush = false)
    (hms : 10 < env.mostRecentFallbackTime + FALLBACK_THROTTLE_MS - env.now)
    (hnext : env.nextLanesAfterSuspense = NoLanes)
    (hsub : env.suspendedSubset = true) :
    (finishConcurrentRender env RootExitStatus.rootSuspended lanes alternate
        recov ns).1 =
      [Ev.markSuspended lanes,
       Ev.scheduleTimeoutCommit
         (env.mostRecentFallbackTime + FALLBACK_THROTTLE_MS - env.now)] ∧
    setCurrentEvents (finishConcurrentRender env RootExitStatus.rootSuspended
        lanes alternate recov ns).1 = [] ∧
    env.now + (env.mostRecentFallbackTime + FALLBACK_THROTTLE_MS - env.now) =
      env.mostRecentFallbackTime + FALLBACK_THROTTLE_MS := by
  have hfin : (finishConcurrentRender env RootExitStatus.rootSuspended lanes
      alternate recov ns).1 =
      [Ev.markSuspended lanes,
       Ev.scheduleTimeoutCommit
         (env.mostRecentFallbackTime + FALLBACK_THROTTLE_MS - env.now)] := by
    simp [finishConcurrentRender, hr, hdev, hms, hnext, hsub]
  refine ⟨hfin, ?_, by omega⟩
  rw [hfin]
  simp [setCurrentEvents]

/-- Witness for C9: 400ms into the window (`now = 1000`, last fallback at
900), the suspended retries-only render schedules its commit on a 400ms
timeout and publishes nothing. -/
theorem suspended_fallback_throttled_witness :
    (finishConcurrentRender wenvRetry RootExitStatus.rootSuspended 4 2 none
        ⟨0, none, 0, none⟩).1 =
      [Ev.markSuspended 4, Ev.scheduleTimeoutCommit 400] := by
  have h := suspended_fallback_throttled wenvRetry 4 2 none ⟨0, none, 0, none⟩
    rfl rfl (by decide) rfl rfl
  rw [h.1]
  decide

/-- Claim C2: for a concurrent render pass that exits `RootErrored` (with
non-empty error-retry lanes, as `getLanesToRetrySynchronouslyOnError`
produces whenever non-offscreen work is pending), the engine retries exactly
once, synchronously, over the error-retry lanes; when the retry also errors
the resulting tree is still committed (published via
`root.current = finishedWork`), nothing is thrown to the caller, and the
recoverable errors queued at commit are each reported through the root's
`onRecoverableError` callback during the commit. -/
theorem errored_concurrent_retry (env : WEnv) (lanes : Lanes)
    (ns : NestedState)
    (hpc : env.passiveCanceledCallback = false)
    (hl : lanes ≠ NoLanes)
    (hblock : env.includesBlockingLane lanes = false)
    (hexp : env.includesExpiredLane lanes = false)
    (hto : env.didTimeout = false)
    (h0 : (env.renders 0).status = RootExitStatus.rootErrored)
    (hretry : env.errorRetryLanes ≠ NoLanes)
    (hdeh : env.isDehydrated = false)
    (h1 : (env.renders 1).status = RootExitStatus.rootErrored)
    (hblockR : env.includesBlockingLane env.errorRetryLanes = false)
    (hcons : env.consistentWith (env.renders 1).tree = true)
    (htree : (env.renders 1).tree ≠ env.currentTree)
    (hunc : env.hasUncaughtError = false) :
    renderEvents (performConcurrentWorkOnRoot env lanes ns).1 =
      [(false, lanes), (true, env.errorRetryLanes)] ∧
    setCurrentEvents (performConcurrentWorkOnRoot env lanes ns).1 =
      [(env.renders 1).tree] ∧
    (performConcurrentWorkOnRoot env lanes ns).2.1 = none ∧
    (∀ l : List Nat, (env.renders 1).recoverableErrors = some l →
      reportedErrors (performConcurrentWorkOnRoot env lanes ns).1 = l) := by
  have hct := commit_trace_no_throw env (env.renders 1).tree
    (env.renders 1).recoverableErrors ns htree hunc
  have hdrv : performConcurrentWorkOnRoot env lanes ns =
      (Ev.flushPassive :: Ev.render false lanes ::
        Ev.render true env.errorRetryLanes :: Ev.storeCheck true ::
        ((commitRootImpl env (some (env.renders 1).tree)
            (env.renders 1).recoverableErrors ns).1 ++ [Ev.ensureScheduled]),
       none,
       (commitRootImpl env (some (env.renders 1).tree)
          (env.renders 1).recoverableErrors ns).2.2) := by
    simp [performConcurrentWorkOnRoot, doRender, recoverFromConcurrentError,
      finishConcurrentRender, hpc, hl, hblock, hexp, hto, h0, hretry, hdeh,
      h1, hblockR, hcons, hct]
  refine ⟨?_, ?_, ?_, ?_⟩
  · rw [hdrv]
    simp [renderEvents, renderEvents_append,
      commit_trace_renderEvents env (some (env.renders 1).tree)
        (env.renders 1).recoverableErrors ns]
  · rw [hdrv]
    simp [setCurrentEvents, setCurrentEvents_append,
      commit_trace_published env (env.renders 1).tree
        (env.renders 1).recoverableErrors ns htree]
  · rw [hdrv]
  · intro l hrec
    rw [hdrv, hrec]
    simp [reportedErrors, reportedErrors_append,
      commit_trace_reported env (env.renders 1).tree l ns htree]

/-- Witness for C2: with both the concurrent render and the synchronous
retry erroring, the driver renders concurrently over lanes 4 and then
synchronously once over the retry lanes 2, and the commit reports the
queued recoverable error 8. -/
theorem errored_concurrent_retry_witness :
    renderEvents (performConcurrentWorkOnRoot wenvErr 4 ⟨0, none, 0, none⟩).1 =
      [(false, 4), (true, 2)] ∧
    reportedErrors
      (performConcurrentWorkOnRoot wenvErr 4 ⟨0, none, 0, none⟩).1 = [8] := by
  have h := errored_concurrent_retry wenvErr 4 ⟨0, none, 0, none⟩ rfl
    (by decide) rfl rfl rfl rfl (by decide) rfl rfl rfl rfl (by decide) rfl
  refine ⟨?_, h.2.2.2 [8] rfl⟩
  rw [h.1]
  rfl

/-- Claim C6: after a time-sliced (concurrent) render pass completes, and
before the result is committed, the engine checks the rendered external
stores against their live values; on failure the completed tree is
discarded: the same lanes are re-rendered synchronously and only the tree
produced by that synchronous re-render is published to `root.current`. -/
theorem store_consistency_rerender (env : WEnv) (lanes : Lanes)
    (ns : NestedState)
    (hpc : env.passiveCanceledCallback = false)
    (hl : lanes ≠ NoLanes)
    (hblock : env.includesBlockingLane lanes = false)
    (hexp : env.includesExpiredLane lanes = false)
    (hto : env.didTimeout = false)
    (h0 : (env.renders 0).status = RootExitStatus.rootCompleted)
    (hcons0 : env.consistentWith (env.renders 0).tree = false)
    (h1 : (env.renders 1).status = RootExitStatus.rootCompleted)
    (htree : (env.renders 1).tree ≠ env.currentTree)
    (hunc : env.hasUncaughtError = false) :
    renderEvents (performConcurrentWorkOnRoot env lanes ns).1 =
      [(false, lanes), (true, lanes)] ∧
    setCurrentEvents (performConcurrentWorkOnRoot env lanes ns).1 =
      [(env.renders 1).tree] ∧
    (∃ pre post, (performConcurrentWorkOnRoot env lanes ns).1 =
        pre ++ Ev.storeCheck false :: post ∧
      setCurrentEvents pre = [] ∧
      setCurrentEvents post = [(env.renders 1).tree]) := by
  have hct := commit_trace_no_throw env (env.renders 1).tree
    (env.renders 1).recoverableErrors ns htree hunc
  have hdrv : performConcurrentWorkOnRoot env lanes ns =
      (Ev.flushPassive :: Ev.render false lanes :: Ev.storeCheck false ::
        Ev.render true lanes ::
        ((commitRootImpl env (some (env.renders 1).tree)
            (env.renders 1).recoverableErrors ns).1 ++ [Ev.ensureScheduled]),
       none,
       (commitRootImpl env (some (env.renders 1).tree)
          (env.renders 1).recoverableErrors ns).2.2) := by
    simp [performConcurrentWorkOnRoot, doRender, recoverFromConcurrentError,
      finishConcurrentRender, hpc, hl, hblock, hexp, hto, h0, hcons0, h1, hct]
  have hpub := commit_trace_published env (env.renders 1).tree
    (env.renders 1).recoverableErrors ns htree
  refine ⟨?_, ?_, ?_⟩
  · rw [hdrv]
    simp [renderEvents, renderEvents_append,
      commit_trace_renderEvents env (some (env.renders 1).tree)
        (env.renders 1).recoverableErrors ns]
  · rw [hdrv]
    simp [setCurrentEvents, setCurrentEvents_append, hpub]
  · refine ⟨[Ev.flushPassive, Ev.render false lanes],
      Ev.render true lanes ::
        ((commitRootImpl env (some (env.renders 1).tree)
            (env.renders 1).recoverableErrors ns).1 ++ [Ev.ensureScheduled]),
      ?_, rfl, ?_⟩
    · rw [hdrv]
      rfl
    · simp [setCurrentEvents, setCurrentEvents_append, hpub]

/-- Witness for C6: the concurrent render of tree 2 fails the store check;
the synchronous re-render of the same lanes produces tree 3, and tree 3 is
the only tree published. -/
theorem store_consistency_rerender_witness :
    setCurrentEvents
      (performConcurrentWorkOnRoot wenvStore 4 ⟨0, none, 0, none⟩).1 = [3] := by
  have h := store_consistency_rerender wenvStore 4 ⟨0, none, 0, none⟩ rfl
    (by decide) rfl rfl rfl rfl (by decide) rfl (by decide) rfl
  rw [h.2.1]
  rfl

end ReadReact
